import Mathlib

/-!
Verification of the agent-pattern scripts: a shallow embedding of the
repository's Python modules (weather_agent.py, structured_output.py,
env_setup.py, parallelization.py, prompt_chaining.py, routing.py) into
Lean, with the network/LLM call outcomes passed in as explicit parameters.
-/

/-!
JSON values as Python's `json.loads` / `response.json()` produce them.
Numbers are modelled as rationals (decimal JSON literals).
-/

inductive JValue : Type where
  | jnull : JValue
  | jbool : Bool → JValue
  | jnum : ℚ → JValue
  | jstr : String → JValue
  | jarr : List JValue → JValue
  | jobj : List (String × JValue) → JValue

/-- Python `str.strip()` with no argument: remove leading and trailing
whitespace. Defined on the character list so that it evaluates by
reduction. -/
def pyStrip (s : String) : String :=
  ⟨((s.data.dropWhile Char.isWhitespace).reverse.dropWhile Char.isWhitespace).reverse⟩

/-- Python truthiness of a decoded JSON value: `None`, `False`, `0`, `""`,
`[]` and `{}` are falsy, everything else is truthy. -/
def JValue.truthy : JValue → Bool
  | .jnull => false
  | .jbool b => b
  | .jnum q => decide (q ≠ 0)
  | .jstr s => decide (s ≠ "")
  | .jarr xs => !xs.isEmpty
  | .jobj fs => !fs.isEmpty

namespace WeatherAgent

/-- src/agents/basics/weather_agent.py, `get_weather` (lines 31-41), as a
function of the HTTP response it observes: the status code and the decoded
JSON body. On status 200 it returns `data["current"]`; Python dict indexing
raises `KeyError` when the key is missing (and a `TypeError` when the body is
not an object), modelled by `Except.error ()`. On any other status it returns
the literal failure string. -/
def get_weather (status : Nat) (body : JValue) : Except Unit JValue :=
  if status = 200 then
    match body with
    | .jobj fields =>
        match fields.lookup "current" with
        | some v => Except.ok v
        | none => Except.error ()
    | _ => Except.error ()
  else Except.ok (JValue.jstr "Could not retrieve weather data.")

end WeatherAgent

namespace ConfigLoader

/-- Python falsy test `not x` for an environment lookup result:
`os.getenv` yields `None` when unset; the empty string is also falsy. -/
def pyFalsy : Option String → Bool
  | none => true
  | some s => decide (s = "")

/-- The four environment-sourced settings a component reads at startup. -/
structure Settings where
  model : Option String
  api_key : Option String
  azure_endpoint : Option String
  api_version : Option String
deriving DecidableEq

/-- src/agents/basics/structured_output.py lines 10-16 (identical check in
weather_agent.py lines 13-21): read the four settings and raise `ValueError`
when the endpoint or the model is absent or empty, before any client use. -/
def structured_output_startup (model api_key azure_endpoint api_version : Option String) :
    Except Unit Settings :=
  if pyFalsy azure_endpoint || pyFalsy model then Except.error ()
  else Except.ok ⟨model, api_key, azure_endpoint, api_version⟩

/-- src/agents/patterns/prompt_chaining.py lines 14-23: the model identifier
is the hardcoded literal "gpt-4o-mini-2"; only the endpoint is validated. -/
def prompt_chaining_startup (api_key azure_endpoint api_version : Option String) :
    Except Unit Settings :=
  if pyFalsy azure_endpoint then Except.error ()
  else Except.ok ⟨some "gpt-4o-mini-2", api_key, azure_endpoint, api_version⟩

/-- The record env_setup.py builds: the model is hardcoded and the other
three fields are taken from the environment unchanged. -/
structure EnvVars where
  model : String
  api_key : Option String
  azure_endpoint : Option String
  api_version : Option String
deriving DecidableEq

/-- src/agents/basics/env_setup.py lines 7-12: `env_vars` is built with no
validation of any field. -/
def env_setup_env_vars (api_key azure_endpoint api_version : Option String) : EnvVars :=
  ⟨"gpt-4o-mini-2", api_key, azure_endpoint, api_version⟩

/-- Module-level startup of src/agents/patterns/parallelization.py (and
routing.py): it imports `env_vars` from env_setup.py and performs no
configuration check of its own — no code of the repository raises here,
whatever the environment holds. -/
def parallelization_startup (api_key azure_endpoint api_version : Option String) :
    Except Unit EnvVars :=
  Except.ok (env_setup_env_vars api_key azure_endpoint api_version)

end ConfigLoader

namespace StructuredOutput

/-- The CalendarEvent schema of src/agents/basics/structured_output.py
(the source spells it `CalenderEvent`). -/
structure CalenderEvent where
  name : String
  date : String
  participants : List String
deriving DecidableEq

/-- src/agents/basics/structured_output.py lines 48-53: the parsed result is
read; when it is present the three fields are printed, when it is `None`
nothing at all is printed and nothing is raised. The returned value is the
tuple of printed fields, `none` when no line is printed. -/
def parsed_event_handling (parsed : Option CalenderEvent) :
    Option (String × String × List String) :=
  match parsed with
  | some e => some (e.name, e.date, e.participants)
  | none => none

end StructuredOutput

namespace Parallelization

/-- The guardrail verdict schema of src/agents/patterns/parallelization.py. -/
structure InputValidation where
  is_allowed : Bool
  reason : String
deriving DecidableEq

/-- Outcome of one awaited model call: the coroutine either raises, or
returns its (possibly `None`) value. -/
inductive CallOutcome (α : Type) : Type where
  | raises : CallOutcome α
  | returns : Option α → CallOutcome α

/-- `asyncio.gather` with the default `return_exceptions=False`: if either
task raises, the exception propagates to the awaiter; otherwise both
returned values are delivered. -/
def gather2 {α β : Type} : CallOutcome α → CallOutcome β → Except Unit (Option α × Option β)
  | .raises, _ => Except.error ()
  | .returns _, .raises => Except.error ()
  | .returns a, .returns b => Except.ok (a, b)

/-- src/agents/patterns/parallelization.py, `get_answer_with_guardrail`
(lines 74-96), as a function of the two call outcomes: gather both, then
`is_allowed` is the verdict's flag when an `InputValidation` was returned
and `False` otherwise; allowed returns the generated answer, otherwise the
rejection string built from the verdict's reason ("Unknown reason" when the
guardrail returned `None`). -/
def get_answer_with_guardrail (g : CallOutcome InputValidation) (a : CallOutcome String) :
    Except Unit (Option String) :=
  match gather2 g a with
  | Except.error e => Except.error e
  | Except.ok (check, answer) =>
      let is_allowed := match check with
        | some v => v.is_allowed
        | none => false
      if is_allowed then Except.ok answer
      else
        let reason := match check with
          | some v => v.reason
          | none => "Unknown reason"
        Except.ok (some ("Topic not allowed: " ++ reason))

end Parallelization

namespace PromptChaining

/-- Spam verdict schema of src/agents/patterns/prompt_chaining.py. -/
structure FilteredEmail where
  is_spam : Bool
  confidence_score : ℚ

/-- Cleaned-content schema of prompt_chaining.py. -/
structure CleanedEmailOutput where
  clean_output : String

/-- Summary schema of prompt_chaining.py. -/
structure EmailSummaryOutput where
  summary : String
deriving DecidableEq

/-- Outcome of one schema-constrained LLM stage call: the request either
raises, or delivers a parsed result that may be `None`. -/
inductive StageOutcome (α : Type) : Type where
  | raises : StageOutcome α
  | returns : Option α → StageOutcome α

/-- Common body of `filter_mail` / `get_cleaned_mail` / `summarise_mail`
(prompt_chaining.py lines 62-174): a raising call re-raises, a `None`
parsed result raises `ValueError` (`if not result: raise`), a present
result is returned. Pydantic model instances are always truthy, so
`not result` is exactly `result is None`. -/
def stage_call {α : Type} : StageOutcome α → Except Unit α
  | .raises => Except.error ()
  | .returns none => Except.error ()
  | .returns (some v) => Except.ok v

/-- prompt_chaining.py `filter_mail`, lines 62-100. -/
def filter_mail : StageOutcome FilteredEmail → Except Unit FilteredEmail := stage_call

/-- prompt_chaining.py `get_cleaned_mail`, lines 103-137. -/
def get_cleaned_mail : StageOutcome CleanedEmailOutput → Except Unit CleanedEmailOutput :=
  stage_call

/-- prompt_chaining.py `summarise_mail`, lines 140-174. -/
def summarise_mail : StageOutcome EmailSummaryOutput → Except Unit EmailSummaryOutput :=
  stage_call

/-- The three pipeline stages, recorded in the order they are invoked. -/
inductive Stage : Type where
  | filterStage : Stage
  | cleanStage : Stage
  | summarizeStage : Stage
deriving DecidableEq

/-- The body of `get_summary_of_mail` (prompt_chaining.py lines 187-209)
before its surrounding try/except: the stages invoked so far, paired with
either the returned value or a propagating exception. Mirrors the source:
spam with confidence strictly above 0.70 returns `None` after the filter;
a blank cleaned output (`not cleaned_mail.clean_output.strip()`) returns
`None` after cleaning; a blank summary returns `None`; otherwise the
summary is returned. -/
def get_summary_of_mail_run (fo : StageOutcome FilteredEmail)
    (co : StageOutcome CleanedEmailOutput) (so : StageOutcome EmailSummaryOutput) :
    List Stage × Except Unit (Option EmailSummaryOutput) :=
  match filter_mail fo with
  | Except.error e => ([Stage.filterStage], Except.error e)
  | Except.ok f =>
    if f.is_spam = true ∧ (7 : ℚ)/10 < f.confidence_score then
      ([Stage.filterStage], Except.ok none)
    else
      match get_cleaned_mail co with
      | Except.error e => ([Stage.filterStage, Stage.cleanStage], Except.error e)
      | Except.ok c =>
        if pyStrip c.clean_output = "" then
          ([Stage.filterStage, Stage.cleanStage], Except.ok none)
        else
          match summarise_mail so with
          | Except.error e =>
              ([Stage.filterStage, Stage.cleanStage, Stage.summarizeStage], Except.error e)
          | Except.ok s =>
            if pyStrip s.summary = "" then
              ([Stage.filterStage, Stage.cleanStage, Stage.summarizeStage], Except.ok none)
            else
              ([Stage.filterStage, Stage.cleanStage, Stage.summarizeStage],
                Except.ok (some s))

/-- prompt_chaining.py `get_summary_of_mail`, lines 177-212: the whole
pipeline body runs inside `try`, and the `except` clause turns any
exception into a `None` return. -/
def get_summary_of_mail (fo : StageOutcome FilteredEmail)
    (co : StageOutcome CleanedEmailOutput) (so : StageOutcome EmailSummaryOutput) :
    List Stage × Option EmailSummaryOutput :=
  match get_summary_of_mail_run fo co so with
  | (stages, Except.ok r) => (stages, r)
  | (stages, Except.error _) => (stages, none)

/-- The cleaned-output result is absent (the call raised, or parsed to
`None`) or blank after trimming whitespace. -/
def cleaned_absent_or_blank : StageOutcome CleanedEmailOutput → Bool
  | .raises => true
  | .returns none => true
  | .returns (some c) => decide (pyStrip c.clean_output = "")

end PromptChaining

namespace Routing

/-- routing.py line 17: the expensive-model identifier. -/
def GPT_4_O : String := "gpt-4o-mini-2"

/-- routing.py line 18: the cheap-model identifier. -/
def GEMINI_2_0_FLASH : String := "gemini-2.0-flash"

/-- routing.py line 147/164: the fixed fallback message of `get_answer`. -/
def fallback_message : String :=
  "Sorry, I couldn\x27t determine how to answer your question."

/-- Which model caller `get_answer` dispatched to, if any. -/
inductive RouterCall : Type where
  | smallModel : RouterCall
  | largeModel : RouterCall
  | noModel : RouterCall
deriving DecidableEq

/-- src/agents/patterns/routing.py, `get_answer` (lines 141-164), as a
function of `decide_route`'s result. `decide_route` returns `None` on any
exception, empty response text or JSON parse failure, and otherwise the
raw `json.loads` of the response text (any `JValue`); the two callers
catch all their own exceptions, so their results are opaque strings passed
in as `smallAns` / `largeAns`. The guard is
`not route or not isinstance(route, list) or not route[0].get("question_type")`
with Python short-circuiting and truthiness; `route[0].get` raises
`AttributeError` when the first list element is not a dict. -/
def get_answer (route : Option JValue) (smallAns largeAns : String) :
    Except Unit (RouterCall × String) :=
  match route with
  | some (.jarr (x :: _)) =>
      match x with
      | .jobj fields =>
          match fields.lookup "question_type" with
          | none => Except.ok (RouterCall.noModel, fallback_message)
          | some q =>
              if q.truthy = false then Except.ok (RouterCall.noModel, fallback_message)
              else
                match q with
                | .jstr s =>
                    if s = GEMINI_2_0_FLASH then Except.ok (RouterCall.smallModel, smallAns)
                    else if s = GPT_4_O then Except.ok (RouterCall.largeModel, largeAns)
                    else Except.ok (RouterCall.noModel, fallback_message)
                | _ => Except.ok (RouterCall.noModel, fallback_message)
      | _ => Except.error ()
  | _ => Except.ok (RouterCall.noModel, fallback_message)

/-- The first routing decision's `question_type` value, when the parsed
route is a nonempty list whose first element is an object carrying one. -/
def firstQuestionType (route : Option JValue) : Option JValue :=
  match route with
  | some (.jarr (JValue.jobj fields :: _)) => fields.lookup "question_type"
  | _ => none

end Routing

/-! Theorems. The claims of the specification, settled against the
embedded code. -/

/-- C1 (amended). In the parallelization guardrail pattern, if the
`topical_guardrail` call raises, `asyncio.gather` (default
`return_exceptions=False`) propagates the exception, so
`get_answer_with_guardrail` itself raises: it never returns the generated
answer, but it also never returns the rejection message, regardless of the
answer-generation call's outcome. -/
theorem parallelization_guardrail_raise_propagates
    (a : Parallelization.CallOutcome String) :
    Parallelization.get_answer_with_guardrail Parallelization.CallOutcome.raises a =
      Except.error () := rfl

/-- C1 counterexample. With the guardrail call raising and the answer call
returning an answer string, `get_answer_with_guardrail` raises
(`Except.error ()`): it does not return a rejection message, contrary to
the claim that the raising guardrail yields the fail-closed rejection
path. -/
theorem parallelization_guardrail_raise_cex :
    Parallelization.get_answer_with_guardrail Parallelization.CallOutcome.raises
      (Parallelization.CallOutcome.returns (some "The answer is 42.")) =
      Except.error () := rfl

/-- C6. When both concurrent calls return, the combination rule holds: a
present verdict with `is_allowed = true` yields exactly the generated
answer; a present verdict with `is_allowed = false` yields the rejection
message carrying the verdict's reason; an absent verdict yields the
rejection message with "Unknown reason". -/
theorem parallelization_combination_rule
    (g : Option Parallelization.InputValidation) (a : Option String) :
    (∀ v, g = some v → v.is_allowed = true →
      Parallelization.get_answer_with_guardrail
        (Parallelization.CallOutcome.returns g)
        (Parallelization.CallOutcome.returns a) = Except.ok a)
    ∧ (∀ v, g = some v → v.is_allowed = false →
      Parallelization.get_answer_with_guardrail
        (Parallelization.CallOutcome.returns g)
        (Parallelization.CallOutcome.returns a) =
        Except.ok (some ("Topic not allowed: " ++ v.reason)))
    ∧ (g = none →
      Parallelization.get_answer_with_guardrail
        (Parallelization.CallOutcome.returns g)
        (Parallelization.CallOutcome.returns a) =
        Except.ok (some "Topic not allowed: Unknown reason")) := by
  refine ⟨?_, ?_, ?_⟩
  · rintro v rfl hv
    simp [Parallelization.get_answer_with_guardrail, Parallelization.gather2, hv]
  · rintro v rfl hv
    simp [Parallelization.get_answer_with_guardrail, Parallelization.gather2, hv]
  · rintro rfl
    simp [Parallelization.get_answer_with_guardrail, Parallelization.gather2]

/-- C4. Weather tool execution: on HTTP status 200 whose JSON body is an
object carrying a "current" member, `get_weather` returns that member's
value unchanged; on any non-200 status it returns exactly the literal
string "Could not retrieve weather data.". -/
theorem weather_tool_step (status : Nat) (body : JValue) :
    (∀ fields v, status = 200 → body = JValue.jobj fields →
      fields.lookup "current" = some v →
      WeatherAgent.get_weather status body = Except.ok v)
    ∧ (status ≠ 200 →
      WeatherAgent.get_weather status body =
        Except.ok (JValue.jstr "Could not retrieve weather data.")) := by
  constructor
  · rintro fields v rfl rfl hv
    simp [WeatherAgent.get_weather, hv]
  · intro h
    simp [WeatherAgent.get_weather, h]

/-- C10. A 200 response whose JSON-object body lacks the "current" key
makes `get_weather` raise (`KeyError` from `data["current"]`): it returns
neither a current object nor the failure sentinel. -/
theorem weather_missing_current_raises (fields : List (String × JValue))
    (h : fields.lookup "current" = none) :
    WeatherAgent.get_weather 200 (JValue.jobj fields) = Except.error () := by
  simp [WeatherAgent.get_weather, h]

/-- C10 witness: the empty body `{}` at status 200 raises. -/
theorem weather_missing_current_raises_w :
    WeatherAgent.get_weather 200 (JValue.jobj []) = Except.error () :=
  weather_missing_current_raises [] rfl

/-- C9 (amended). The parsed-result handling of structured_output.py:
an absent parsed event produces no output at all (nothing is printed or
logged, and nothing is raised), while a present event prints exactly its
three fields. -/
theorem structured_output_parsed_handling :
    StructuredOutput.parsed_event_handling none = none
    ∧ ∀ e, StructuredOutput.parsed_event_handling (some e) =
        some (e.name, e.date, e.participants) :=
  ⟨rfl, fun _ => rfl⟩

/-- C9 counterexample. For the absent parsed result the script prints
nothing whatsoever — no output records the absence, contrary to the claim
that an absent result is logged/printed as such. -/
theorem structured_output_absent_cex :
    StructuredOutput.parsed_event_handling none = none := rfl

/-- C5 (amended). Startup validation per component: structured_output.py
(and weather_agent.py) raise a configuration error exactly when the
endpoint or the model is absent or empty; prompt_chaining.py validates the
endpoint only (its model is a hardcoded non-empty literal); the components
built on env_setup.py (parallelization.py, routing.py) perform no
validation at all and never raise a configuration error. -/
theorem config_startup_validation (model api_key azure_endpoint api_version : Option String) :
    (ConfigLoader.structured_output_startup model api_key azure_endpoint api_version =
        Except.error () ↔
      (ConfigLoader.pyFalsy azure_endpoint = true ∨ ConfigLoader.pyFalsy model = true))
    ∧ (ConfigLoader.prompt_chaining_startup api_key azure_endpoint api_version =
        Except.error () ↔ ConfigLoader.pyFalsy azure_endpoint = true)
    ∧ ConfigLoader.parallelization_startup api_key azure_endpoint api_version =
        Except.ok (ConfigLoader.env_setup_env_vars api_key azure_endpoint api_version) := by
  refine ⟨?_, ?_, rfl⟩
  · rcases h1 : ConfigLoader.pyFalsy azure_endpoint <;>
      rcases h2 : ConfigLoader.pyFalsy model <;>
        simp [ConfigLoader.structured_output_startup, h1, h2]
  · rcases h1 : ConfigLoader.pyFalsy azure_endpoint <;>
      simp [ConfigLoader.prompt_chaining_startup, h1]

/-- C5 counterexample. The parallelization component started with an empty
endpoint (and no key or version at all) raises no configuration error:
startup succeeds with the unvalidated record, contrary to the claim that
every component fails fatally on an absent or empty endpoint. -/
theorem config_no_validation_cex :
    ConfigLoader.parallelization_startup none (some "") none =
      Except.ok ⟨"gpt-4o-mini-2", none, some "", none⟩ := rfl

/-- C3. For every `FilteredEmail` result the pipeline halts at the filter
stage with no summary exactly when `is_spam` is true and the confidence
score is strictly greater than 0.70: under that condition the run ends
after the filter with no summary (whatever the later stages would do), and
otherwise the cleaning stage is always invoked — in particular a spam
verdict at exactly 0.70 proceeds past the filter, while one at 0.85
halts. -/
theorem prompt_chaining_spam_threshold (f : PromptChaining.FilteredEmail)
    (co : PromptChaining.StageOutcome PromptChaining.CleanedEmailOutput)
    (so : PromptChaining.StageOutcome PromptChaining.EmailSummaryOutput) :
    (f.is_spam = true ∧ (7 : ℚ)/10 < f.confidence_score →
      PromptChaining.get_summary_of_mail (PromptChaining.StageOutcome.returns (some f)) co so =
        ([PromptChaining.Stage.filterStage], none))
    ∧ (¬(f.is_spam = true ∧ (7 : ℚ)/10 < f.confidence_score) →
      PromptChaining.Stage.cleanStage ∈
        (PromptChaining.get_summary_of_mail
          (PromptChaining.StageOutcome.returns (some f)) co so).1) := by
  constructor
  · intro h
    simp [PromptChaining.get_summary_of_mail, PromptChaining.get_summary_of_mail_run,
      PromptChaining.filter_mail, PromptChaining.stage_call, h]
  · intro h
    rcases co with _ | c
    · simp [PromptChaining.get_summary_of_mail, PromptChaining.get_summary_of_mail_run,
        PromptChaining.filter_mail, PromptChaining.get_cleaned_mail,
        PromptChaining.stage_call, h]
    · rcases c with _ | c
      · simp [PromptChaining.get_summary_of_mail, PromptChaining.get_summary_of_mail_run,
          PromptChaining.filter_mail, PromptChaining.get_cleaned_mail,
          PromptChaining.stage_call, h]
      · rcases so with _ | s
        · by_cases hc : pyStrip c.clean_output = "" <;>
            simp [PromptChaining.get_summary_of_mail,
              PromptChaining.get_summary_of_mail_run, PromptChaining.filter_mail,
              PromptChaining.get_cleaned_mail, PromptChaining.summarise_mail,
              PromptChaining.stage_call, h, hc]
        · rcases s with _ | s
          · by_cases hc : pyStrip c.clean_output = "" <;>
              simp [PromptChaining.get_summary_of_mail,
                PromptChaining.get_summary_of_mail_run, PromptChaining.filter_mail,
                PromptChaining.get_cleaned_mail, PromptChaining.summarise_mail,
                PromptChaining.stage_call, h, hc]
          · by_cases hc : pyStrip c.clean_output = "" <;>
              by_cases hs : pyStrip s.summary = "" <;>
                simp [PromptChaining.get_summary_of_mail,
                  PromptChaining.get_summary_of_mail_run, PromptChaining.filter_mail,
                  PromptChaining.get_cleaned_mail, PromptChaining.summarise_mail,
                  PromptChaining.stage_call, h, hc, hs]

/-- C7. Whenever the cleaned-output result is absent or blank after
trimming, the pipeline produces no summary and the summarization stage is
never invoked, for every filter and summarizer outcome. -/
theorem prompt_chaining_blank_clean_halts (fo : PromptChaining.StageOutcome PromptChaining.FilteredEmail)
    (co : PromptChaining.StageOutcome PromptChaining.CleanedEmailOutput)
    (so : PromptChaining.StageOutcome PromptChaining.EmailSummaryOutput)
    (h : PromptChaining.cleaned_absent_or_blank co = true) :
    (PromptChaining.get_summary_of_mail fo co so).2 = none
    ∧ PromptChaining.Stage.summarizeStage ∉
        (PromptChaining.get_summary_of_mail fo co so).1 := by
  rcases fo with _ | f
  · simp [PromptChaining.get_summary_of_mail, PromptChaining.get_summary_of_mail_run,
      PromptChaining.filter_mail, PromptChaining.stage_call]
  · rcases f with _ | f
    · simp [PromptChaining.get_summary_of_mail, PromptChaining.get_summary_of_mail_run,
        PromptChaining.filter_mail, PromptChaining.stage_call]
    · by_cases hf : f.is_spam = true ∧ (7 : ℚ)/10 < f.confidence_score
      · simp [PromptChaining.get_summary_of_mail, PromptChaining.get_summary_of_mail_run,
          PromptChaining.filter_mail, PromptChaining.stage_call, hf]
      · rcases co with _ | c
        · simp [PromptChaining.get_summary_of_mail,
            PromptChaining.get_summary_of_mail_run, PromptChaining.filter_mail,
            PromptChaining.get_cleaned_mail, PromptChaining.stage_call, hf]
        · rcases c with _ | c
          · simp [PromptChaining.get_summary_of_mail,
              PromptChaining.get_summary_of_mail_run, PromptChaining.filter_mail,
              PromptChaining.get_cleaned_mail, PromptChaining.stage_call, hf]
          · have hc : pyStrip c.clean_output = "" := by
              simpa [PromptChaining.cleaned_absent_or_blank] using h
            simp [PromptChaining.get_summary_of_mail,
              PromptChaining.get_summary_of_mail_run, PromptChaining.filter_mail,
              PromptChaining.get_cleaned_mail, PromptChaining.stage_call, hf, hc]

/-- C7 witness: a non-spam filter verdict with a whitespace-only cleaned
output halts with no summary and without the summarization stage. -/
theorem prompt_chaining_blank_clean_halts_w :
    (PromptChaining.get_summary_of_mail
        (PromptChaining.StageOutcome.returns (some ⟨false, 1/2⟩))
        (PromptChaining.StageOutcome.returns (some ⟨"   "⟩))
        (PromptChaining.StageOutcome.returns none)).2 = none
    ∧ PromptChaining.Stage.summarizeStage ∉
        (PromptChaining.get_summary_of_mail
          (PromptChaining.StageOutcome.returns (some ⟨false, 1/2⟩))
          (PromptChaining.StageOutcome.returns (some ⟨"   "⟩))
          (PromptChaining.StageOutcome.returns none)).1 :=
  prompt_chaining_blank_clean_halts _ _ _ (by decide)

/-- C8. The top-level orchestrator catches every exception of the
filter/clean/summarize pipeline: whenever the pipeline body propagates an
exception, `get_summary_of_mail` returns a `None` summary instead of
raising. -/
theorem prompt_chaining_catches_exceptions (fo : PromptChaining.StageOutcome PromptChaining.FilteredEmail)
    (co : PromptChaining.StageOutcome PromptChaining.CleanedEmailOutput)
    (so : PromptChaining.StageOutcome PromptChaining.EmailSummaryOutput)
    (h : (PromptChaining.get_summary_of_mail_run fo co so).2 = Except.error ()) :
    (PromptChaining.get_summary_of_mail fo co so).2 = none := by
  unfold PromptChaining.get_summary_of_mail
  rcases hr : PromptChaining.get_summary_of_mail_run fo co so with ⟨stages, r⟩
  rcases r with e | v
  · rfl
  · rw [hr] at h
    exact absurd h (by simp)

/-- C8 witness: a raising filter call is caught and yields a `None`
summary. -/
theorem prompt_chaining_catches_exceptions_w :
    (PromptChaining.get_summary_of_mail PromptChaining.StageOutcome.raises
      (PromptChaining.StageOutcome.returns none)
      (PromptChaining.StageOutcome.returns none)).2 = none :=
  prompt_chaining_catches_exceptions _ _ _ rfl

/-- C2 (amended). Router dispatch over every possible `decide_route`
result: a first decision whose `question_type` is the cheap-model
identifier dispatches exclusively to the cheap-model caller; the
expensive-model identifier dispatches exclusively to the expensive-model
caller; in every other case neither model is called, and the fixed
fallback message is returned — except when the parsed result is a
nonempty JSON list whose first element is not an object, where
`route[0].get("question_type")` raises `AttributeError` instead of
returning, and the error case arises in exactly that situation. -/
theorem routing_get_answer_dispatch (route : Option JValue) (smallAns largeAns : String) :
    (Routing.firstQuestionType route = some (JValue.jstr Routing.GEMINI_2_0_FLASH) →
      Routing.get_answer route smallAns largeAns =
        Except.ok (Routing.RouterCall.smallModel, smallAns))
    ∧ (Routing.firstQuestionType route = some (JValue.jstr Routing.GPT_4_O) →
      Routing.get_answer route smallAns largeAns =
        Except.ok (Routing.RouterCall.largeModel, largeAns))
    ∧ (Routing.firstQuestionType route ≠ some (JValue.jstr Routing.GEMINI_2_0_FLASH) →
      Routing.firstQuestionType route ≠ some (JValue.jstr Routing.GPT_4_O) →
      Routing.get_answer route smallAns largeAns =
        Except.ok (Routing.RouterCall.noModel, Routing.fallback_message)
      ∨ Routing.get_answer route smallAns largeAns = Except.error ())
    ∧ (Routing.get_answer route smallAns largeAns = Except.error () →
      ∃ x xs, route = some (JValue.jarr (x :: xs)) ∧ ∀ fields, x ≠ JValue.jobj fields) := by
  rcases route with _ | v
  · exact ⟨by simp [Routing.firstQuestionType], by simp [Routing.firstQuestionType],
      fun _ _ => Or.inl rfl, by simp [Routing.get_answer]⟩
  · cases v with
    | jnull =>
        exact ⟨by simp [Routing.firstQuestionType], by simp [Routing.firstQuestionType],
          fun _ _ => Or.inl rfl, by simp [Routing.get_answer]⟩
    | jbool b =>
        exact ⟨by simp [Routing.firstQuestionType], by simp [Routing.firstQuestionType],
          fun _ _ => Or.inl rfl, by simp [Routing.get_answer]⟩
    | jnum q =>
        exact ⟨by simp [Routing.firstQuestionType], by simp [Routing.firstQuestionType],
          fun _ _ => Or.inl rfl, by simp [Routing.get_answer]⟩
    | jstr s =>
        exact ⟨by simp [Routing.firstQuestionType], by simp [Routing.firstQuestionType],
          fun _ _ => Or.inl rfl, by simp [Routing.get_answer]⟩
    | jobj fs =>
        exact ⟨by simp [Routing.firstQuestionType], by simp [Routing.firstQuestionType],
          fun _ _ => Or.inl rfl, by simp [Routing.get_answer]⟩
    | jarr xs =>
        rcases xs with _ | ⟨x, rest⟩
        · exact ⟨by simp [Routing.firstQuestionType], by simp [Routing.firstQuestionType],
            fun _ _ => Or.inl rfl, by simp [Routing.get_answer]⟩
        · cases x with
          | jnull =>
              exact ⟨by simp [Routing.firstQuestionType], by simp [Routing.firstQuestionType],
                fun _ _ => Or.inr rfl, fun _ => ⟨JValue.jnull, rest, rfl, fun fields => by simp⟩⟩
          | jbool b =>
              exact ⟨by simp [Routing.firstQuestionType], by simp [Routing.firstQuestionType],
                fun _ _ => Or.inr rfl, fun _ => ⟨JValue.jbool b, rest, rfl, fun fields => by simp⟩⟩
          | jnum q =>
              exact ⟨by simp [Routing.firstQuestionType], by simp [Routing.firstQuestionType],
                fun _ _ => Or.inr rfl, fun _ => ⟨JValue.jnum q, rest, rfl, fun fields => by simp⟩⟩
          | jstr s =>
              exact ⟨by simp [Routing.firstQuestionType], by simp [Routing.firstQuestionType],
                fun _ _ => Or.inr rfl, fun _ => ⟨JValue.jstr s, rest, rfl, fun fields => by simp⟩⟩
          | jarr ys =>
              exact ⟨by simp [Routing.firstQuestionType], by simp [Routing.firstQuestionType],
                fun _ _ => Or.inr rfl, fun _ => ⟨JValue.jarr ys, rest, rfl, fun fields => by simp⟩⟩
          | jobj fields =>
              refine ⟨?_, ?_, ?_, ?_⟩
              · intro h
                simp only [Routing.firstQuestionType] at h
                simp [Routing.get_answer, h, JValue.truthy, Routing.GEMINI_2_0_FLASH]
              · intro h
                simp only [Routing.firstQuestionType] at h
                simp [Routing.get_answer, h, JValue.truthy, Routing.GPT_4_O,
                  Routing.GEMINI_2_0_FLASH]
              · intro h1 h2
                simp only [Routing.firstQuestionType] at h1 h2
                rcases hq : fields.lookup "question_type" with _ | q
                · exact Or.inl (by simp [Routing.get_answer, hq])
                · rcases ht : q.truthy with _ | _
                  · exact Or.inl (by simp [Routing.get_answer, hq, ht])
                  · cases q with
                    | jstr s =>
                        rw [hq] at h1 h2
                        have hs1 : s ≠ Routing.GEMINI_2_0_FLASH := fun hs => h1 (by rw [hs])
                        have hs2 : s ≠ Routing.GPT_4_O := fun hs => h2 (by rw [hs])
                        exact Or.inl (by simp [Routing.get_answer, hq, ht, hs1, hs2])
                    | jnull => exact Or.inl (by simp [Routing.get_answer, hq, ht])
                    | jbool b => exact Or.inl (by simp [Routing.get_answer, hq, ht])
                    | jnum n => exact Or.inl (by simp [Routing.get_answer, hq, ht])
                    | jarr ys => exact Or.inl (by simp [Routing.get_answer, hq, ht])
                    | jobj gs => exact Or.inl (by simp [Routing.get_answer, hq, ht])
              · intro h
                exfalso
                rcases hq : fields.lookup "question_type" with _ | q
                · simp [Routing.get_answer, hq] at h
                · rcases ht : q.truthy with _ | _
                  · simp [Routing.get_answer, hq, ht] at h
                  · cases q with
                    | jstr s =>
                        by_cases hs1 : s = Routing.GEMINI_2_0_FLASH
                        · simp [Routing.get_answer, hq, ht, hs1, JValue.truthy,
                            Routing.GEMINI_2_0_FLASH] at h
                        · by_cases hs2 : s = Routing.GPT_4_O
                          · simp [Routing.get_answer, hq, ht, hs1, hs2, JValue.truthy,
                              Routing.GEMINI_2_0_FLASH, Routing.GPT_4_O] at h
                          · simp [Routing.get_answer, hq, ht, hs1, hs2] at h
                    | jnull => simp [Routing.get_answer, hq, ht] at h
                    | jbool b => simp [Routing.get_answer, hq, ht] at h
                    | jnum n => simp [Routing.get_answer, hq, ht] at h
                    | jarr ys => simp [Routing.get_answer, hq, ht] at h
                    | jobj gs => simp [Routing.get_answer, hq, ht] at h

/-- C2 counterexample. A parsed routing result that is a nonempty list
whose first element is the number 5 falls in the claim's "malformed list"
case (it carries no first decision's `question_type`), yet `get_answer`
raises instead of returning the fixed fallback message. -/
theorem routing_malformed_first_element_cex :
    Routing.get_answer (some (JValue.jarr [JValue.jnum 5])) "small answer" "large answer" =
      Except.error ()
    ∧ Routing.firstQuestionType (some (JValue.jarr [JValue.jnum 5])) = none :=
  ⟨rfl, rfl⟩
